import Mathlib

/-
Verification of the zobe_ide trading-agent system: a shallow embedding of
the personality registry, the prediction-to-decision interpreters, the
nonce-tracking discipline of the trader agents, and the orchestrator
trading-loop termination and graduation policy, together with theorems
settling the specified properties.

Numeric values (Python floats) are modelled as rationals; Python dicts of
predictions as association lists; fallible operations (division, max/min of
an empty sequence, external calls) as Option-valued computations, with the
surrounding try/except blocks modelled as an explicit default on the none
case.
-/

/-- A trading decision: direction flag, action string and confidence score,
as returned by every interpreter in the system. -/
structure Decision where
  is_bullish : Bool
  action : String
  confidence : ℚ
deriving DecidableEq, Repr

/-- A trader personality profile. The source stores these as dicts; the
fields read by the interpreters are the name, the numeric thresholds and
the action bias (the purely descriptive fields are never read by the
decision logic and are omitted). -/
structure Personality where
  name : String
  bullish_threshold : ℚ
  confidence_weight : ℚ
  action_bias : String
deriving DecidableEq, Repr

/-- Lowercasing of a string, modelling the lower method of Python str. -/
def pyLower (s : String) : String := String.mk (s.data.map Char.toLower)

/-- Prefix test on character lists (needle first). -/
def charsPrefix : List Char → List Char → Bool
  | [], _ => true
  | _ :: _, [] => false
  | c :: cs, d :: ds => c == d && charsPrefix cs ds

/-- Contiguous-substring test on character lists (needle first). -/
def charsContain : List Char → List Char → Bool
  | needle, [] => needle.isEmpty
  | needle, d :: ds => charsPrefix needle (d :: ds) || charsContain needle ds

/-- Substring containment, modelling the Python expression needle in haystack. -/
def strContains (haystack needle : String) : Bool :=
  charsContain needle.toList haystack.toList

namespace AlloraPersonalities

/-- The fixed ordered personality catalog of
packages/backend/src/traders/allora_personalities.py (TRADER_PERSONALITIES),
restricted to the fields the code reads. -/
def TRADER_PERSONALITIES : List Personality :=
  [ { name := "Illia Polosukhin", bullish_threshold := 0,
      confidence_weight := (7/10), action_bias := "aggressive" },
    { name := "Brian Armstrong", bullish_threshold := (1/10),
      confidence_weight := (4/5), action_bias := "cautious" },
    { name := "Satoshi Nakamoto", bullish_threshold := -(1/10),
      confidence_weight := (1/10), action_bias := "yolo" },
    { name := "Michael Saylor", bullish_threshold := -(1/5),
      confidence_weight := 0, action_bias := "yolo" },
    { name := "Vitalik Buterin", bullish_threshold := 0,
      confidence_weight := (4/5), action_bias := "balanced" },
    { name := "ZachXBT", bullish_threshold := (1/5),
      confidence_weight := (9/10), action_bias := "strategic" },
    { name := "Yat Siu", bullish_threshold := -(1/20),
      confidence_weight := (2/5), action_bias := "aggressive" },
    { name := "Rune Christensen", bullish_threshold := 0,
      confidence_weight := (7/10), action_bias := "balanced" },
    { name := "CZ", bullish_threshold := (1/50),
      confidence_weight := (9/10), action_bias := "cautious" },
    { name := "Larry Fink", bullish_threshold := (1/20),
      confidence_weight := (4/5), action_bias := "strategic" },
    { name := "Jeff Yan", bullish_threshold := 0,
      confidence_weight := (1/2), action_bias := "momentum" },
    { name := "Justin Sun", bullish_threshold := -(1/10),
      confidence_weight := (1/5), action_bias := "aggressive" } ]

/-- Deterministic personality assignment from a wallet address
(get_trader_personality). The md5 hex digest read as an integer comes from
an external library (hashlib) and is modelled as an arbitrary digest
function; the indexing discipline is exactly that of the source. -/
def get_trader_personality (md5hex : String → ℕ) (address : String) : Personality :=
  TRADER_PERSONALITIES.get
    ⟨md5hex address % TRADER_PERSONALITIES.length, Nat.mod_lt _ (by decide)⟩

/-- The AI token topic table of allora_personalities.py (AI_TOKEN_TOPICS). -/
def AI_TOKEN_TOPICS : List (ℕ × String) :=
  [(31, "Virtual/USDT"), (32, "Aixbt/USDT"), (34, "VaderAI/USDT"), (36, "Sekoia/USDT")]

/-- The per-asset static fallback table used on oracle failure inside
get_ai_token_predictions (the defaults dict together with its get default
of 50). -/
def fallback_default (name : String) : ℚ :=
  if name = "Virtual/USDT" then 20
  else if name = "Aixbt/USDT" then 52
  else if name = "VaderAI/USDT" then 51
  else if name = "Sekoia/USDT" then 100
  else 50

/-- One fetch round of get_ai_token_predictions: for each configured topic
the external oracle is consulted; on failure (modelled as none) the static
fallback value for that asset is substituted. -/
def fetch_predictions (oracle : ℕ → Option ℚ) : List (String × ℚ) :=
  AI_TOKEN_TOPICS.map fun t =>
    (t.2, match oracle t.1 with
          | some price => price
          | none => fallback_default t.2)

/-- get_ai_token_predictions including its process-wide cache: on a cache
hit without force_refresh the cached set is returned unchanged; otherwise a
fresh fetch is performed and stored into the cache. Returns the prediction
set together with the new cache contents. -/
def get_ai_token_predictions (oracle : ℕ → Option ℚ)
    (cache : Option (List (String × ℚ))) (force_refresh : Bool) :
    List (String × ℚ) × Option (List (String × ℚ)) :=
  match cache, force_refresh with
  | some c, false => (c, some c)
  | _, _ =>
    let preds := fetch_predictions oracle
    (preds, some preds)

/-- Values of a prediction dict (dict.values()). -/
def dictValues (preds : List (String × ℚ)) : List ℚ := preds.map Prod.snd

/-- Division which fails (Python ZeroDivisionError) on a zero divisor. -/
def safeDiv (a b : ℚ) : Option ℚ := if b = 0 then none else some (a / b)

/-- Python max over a sequence: fails on an empty sequence. -/
def pyMax : List ℚ → Option ℚ
  | [] => none
  | v :: vs => some (vs.foldl max v)

/-- Python min over a sequence: fails on an empty sequence. -/
def pyMin : List ℚ → Option ℚ
  | [] => none
  | v :: vs => some (vs.foldl min v)

/-- The avg_price computation of interpret_ai_market_prediction:
sum of the values divided by the count when the dict is nonempty, else 50. -/
def avg_price_calc (preds : List (String × ℚ)) : Option ℚ :=
  if preds.isEmpty then some 50
  else safeDiv (dictValues preds).sum (preds.length : ℚ)

/-- The confidence computation of interpret_ai_market_prediction: when more
than one prediction is present, confidence from the price spread (clamped
to [(3/10), 1]), else the fixed (1/2). -/
def base_confidence_calc (preds : List (String × ℚ)) : Option ℚ :=
  let prices := dictValues preds
  if prices.length > 1 then
    match pyMax prices, pyMin prices with
    | some mx, some mn => some (max (3/10) (min 1 (1 - (mx - mn) / 100)))
    | _, _ => none
  else some (1/2)

/-- The personality dispatch of interpret_ai_market_prediction, acting on
the computed aggregate price and base confidence: sentiment relative to the
neutral baseline 55, the threshold comparison, the per-bias adjustment of
the bullish flag and the confidence, and the action table. -/
def apply_personality (avg_price confidence_score : ℚ) (p : Personality) : Decision :=
  let sentiment_score := (avg_price - 55) / 55
  let is_bullish : Bool := sentiment_score > p.bullish_threshold
  let res : Bool × ℚ :=
    if p.action_bias = "contrarian" then (!is_bullish, confidence_score)
    else if p.action_bias = "cautious" then
      if confidence_score < p.confidence_weight then (false, confidence_score * (1/2))
      else (is_bullish, confidence_score)
    else if p.action_bias = "momentum" then
      if |sentiment_score| > (1/5) then (is_bullish, min 1 (confidence_score * (3/2)))
      else (is_bullish, confidence_score)
    else if p.action_bias = "yolo" then (avg_price > (40 : ℚ), 1)
    else (is_bullish, confidence_score)
  let ib := res.1
  let conf := res.2
  let action :=
    if p.action_bias = "aggressive" ∨ p.action_bias = "yolo" ∨ p.action_bias = "momentum" then
      if ib then "buy" else "sell"
    else if p.action_bias = "cautious" ∨ p.action_bias = "conservative" then
      if conf < (1/2) then "sell"
      else if ib then "buy" else "sell"
    else if p.action_bias = "contrarian" then
      if ib then "sell" else "buy"
    else
      if ib ∧ conf > (3/10) then "buy" else "sell"
  ⟨ib, action, conf⟩

/-- The try-block body of interpret_ai_market_prediction: none exactly when
the Python body would raise. -/
def interpret_body (preds : List (String × ℚ)) (p : Personality) : Option Decision :=
  match avg_price_calc preds, base_confidence_calc preds with
  | some avg, some conf => some (apply_personality avg conf p)
  | _, _ => none

/-- interpret_ai_market_prediction: the try-block body with the except
handler returning the fixed default decision (false, sell, (3/10)). -/
def interpret_ai_market_prediction (preds : List (String × ℚ)) (p : Personality) : Decision :=
  (interpret_body preds p).getD ⟨false, "sell", (3/10)⟩

/-- The total aggregate-price value delivered by avg_price_calc. -/
def avg_price_of (preds : List (String × ℚ)) : ℚ :=
  if preds.isEmpty then 50 else (dictValues preds).sum / (preds.length : ℚ)

end AlloraPersonalities

namespace AlloraPredictor

/-- The fixed ordered personality catalog of
packages/backend/src/traders/allora_predictor.py (TRADER_PERSONALITIES),
restricted to the fields the code reads. -/
def TRADER_PERSONALITIES : List Personality :=
  [ { name := "Raoul Pal", bullish_threshold := 0,
      confidence_weight := (7/10), action_bias := "aggressive" },
    { name := "Peter Schiff", bullish_threshold := 0,
      confidence_weight := (3/10), action_bias := "contrarian" },
    { name := "Satoshi Nakamoto", bullish_threshold := -(1/10),
      confidence_weight := (1/10), action_bias := "yolo" },
    { name := "Arthur Hayes", bullish_threshold := (1/20),
      confidence_weight := (1/2), action_bias := "momentum" },
    { name := "Vitalik Buterin", bullish_threshold := 0,
      confidence_weight := (4/5), action_bias := "balanced" },
    { name := "Cobie", bullish_threshold := -(1/100),
      confidence_weight := (3/10), action_bias := "yolo" },
    { name := "Su Zhu", bullish_threshold := (1/100),
      confidence_weight := (2/5), action_bias := "aggressive" },
    { name := "SBF", bullish_threshold := 0,
      confidence_weight := (1/5), action_bias := "quick" },
    { name := "CZ", bullish_threshold := (1/50),
      confidence_weight := (9/10), action_bias := "cautious" },
    { name := "Ansem", bullish_threshold := -(1/20),
      confidence_weight := (2/5), action_bias := "aggressive" },
    { name := "GCR", bullish_threshold := (3/100),
      confidence_weight := (7/10), action_bias := "strategic" },
    { name := "Tetranode", bullish_threshold := 0,
      confidence_weight := (3/5), action_bias := "strategic" } ]

/-- Well-typed prediction data as consumed by interpret_prediction: the
combined network inference value and the confidence-interval bounds (the
dict-get defaults of the source apply only to malformed input, which a
well-typed record excludes). -/
structure PredictionData where
  combined_value : ℚ
  upper : ℚ
  lower : ℚ
deriving DecidableEq, Repr

/-- interpret_prediction of allora_predictor.py: base threshold comparison,
per-bias adjustment of the bullish flag and confidence, then the action
table. For well-typed input the try block cannot raise, so the function is
total. -/
def interpret_prediction (d : PredictionData) (p : Personality) : Decision :=
  let combined_value := d.combined_value
  let confidence_range := d.upper - d.lower
  let confidence_score := max 0 (min 1 (1 - confidence_range / (1/2)))
  let is_bullish : Bool := combined_value > p.bullish_threshold
  let res : Bool × ℚ :=
    if p.action_bias = "contrarian" then (!is_bullish, confidence_score)
    else if p.action_bias = "cautious" then
      if confidence_score < p.confidence_weight then (false, confidence_score * (1/2))
      else (is_bullish, confidence_score)
    else if p.action_bias = "momentum" then
      if |combined_value| > (1/20) then (is_bullish, min 1 (confidence_score * (3/2)))
      else (is_bullish, confidence_score)
    else if p.action_bias = "yolo" then (combined_value > (-(1/50) : ℚ), 1)
    else (is_bullish, confidence_score)
  let ib := res.1
  let conf := res.2
  let action :=
    if p.action_bias = "aggressive" ∨ p.action_bias = "yolo" ∨ p.action_bias = "momentum" then
      if ib then "buy" else "sell"
    else if p.action_bias = "cautious" ∨ p.action_bias = "conservative" then
      if conf < (1/2) then "sell"
      else if ib then "buy" else "sell"
    else if p.action_bias = "contrarian" then
      if ib then "sell" else "buy"
    else
      if ib ∧ conf > (3/10) then "buy" else "sell"
  ⟨ib, action, conf⟩

end AlloraPredictor

namespace AlloraGameAgent

/-- The fixed ordered city-personality catalog of
backend/src/cities/invisible_cities.py (INVISIBLE_CITIES), restricted to
the fields the decision logic reads. -/
def INVISIBLE_CITIES : List Personality :=
  [ { name := "Euphemia", bullish_threshold := (3/20),
      confidence_weight := (4/5), action_bias := "contrarian" },
    { name := "Chloe", bullish_threshold := -(1/20),
      confidence_weight := (1/2), action_bias := "momentum" },
    { name := "Eutropia", bullish_threshold := 0,
      confidence_weight := (7/10), action_bias := "cyclical" },
    { name := "Ersilia", bullish_threshold := (1/20),
      confidence_weight := (3/4), action_bias := "network" },
    { name := "Esmeralda", bullish_threshold := 0,
      confidence_weight := (3/5), action_bias := "hedging" } ]

/-- Python float modulus for a positive divisor, used by the hedging branch
(virtual_price % 2). -/
def pyMod (x y : ℚ) : ℚ := x - y * (⌊x / y⌋ : ℚ)

/-- interpret_virtual_price of allora_game_agent.py: sentiment relative to
the neutral baseline 20, distance-based confidence, threshold comparison
and the per-bias dispatch. For numeric input the try block cannot raise, so
the function is total. -/
def interpret_virtual_price (virtual_price : ℚ) (p : Personality) : Decision :=
  let sentiment_score := (virtual_price - 20) / 20
  let confidence_score := min 1 (|sentiment_score| * 2 + (3/10))
  let is_bullish : Bool := sentiment_score > p.bullish_threshold
  if p.action_bias = "contrarian" then
    let ib := !is_bullish
    ⟨ib, if ib then "sell" else "buy", confidence_score⟩
  else if p.action_bias = "momentum" then
    let conf := if |sentiment_score| > (1/5) then min 1 (confidence_score * (3/2))
                else confidence_score
    ⟨is_bullish, if is_bullish then "buy" else "sell", conf⟩
  else if p.action_bias = "cyclical" then
    if virtual_price < 15 then ⟨true, "buy", confidence_score⟩
    else if virtual_price > 25 then ⟨false, "sell", confidence_score⟩
    else ⟨is_bullish, if is_bullish then "buy" else "sell", confidence_score⟩
  else if p.action_bias = "network" then
    if confidence_score < p.confidence_weight then ⟨false, "sell", confidence_score⟩
    else ⟨is_bullish, if is_bullish then "buy" else "sell", confidence_score⟩
  else if p.action_bias = "hedging" then
    if pyMod virtual_price 2 < 1 then
      ⟨is_bullish, if is_bullish then "buy" else "sell", confidence_score⟩
    else
      ⟨is_bullish, if is_bullish then "sell" else "buy", confidence_score⟩
  else
    ⟨is_bullish, if is_bullish then "buy" else "sell", confidence_score⟩

end AlloraGameAgent

namespace TraderAgent

/-
The per-agent nonce discipline of trader_agent.py. The agent stores an
optional local nonce (self.nonce, initially None); the external ledger
nonce (w3.eth.get_transaction_count) is passed in explicitly wherever the
code would fetch it.
-/

/-- get_nonce: fetch from the chain only when no local nonce is tracked;
returns the nonce to use together with the updated local state. -/
def get_nonce (chain_nonce : ℕ) : Option ℕ → ℕ × Option ℕ
  | none => (chain_nonce, some chain_nonce)
  | some n => (n, some n)

/-- increment_nonce: bump the local nonce after a successful send (fetching
first if it was never initialised). -/
def increment_nonce (chain_nonce : ℕ) : Option ℕ → Option ℕ
  | none => some (chain_nonce + 1)
  | some n => some (n + 1)

/-- reset_nonce: resynchronise the local nonce from the chain, used after
any send error. -/
def reset_nonce (chain_nonce : ℕ) : Option ℕ := some chain_nonce

/-- One successful send as performed by every chain-mutating method of
TraderAgent: read the nonce via get_nonce, send with it, then
increment_nonce. Returns the nonce used and the new local state. -/
def successful_send (chain_nonce : ℕ) (s : Option ℕ) : ℕ × Option ℕ :=
  let r := get_nonce chain_nonce s
  (r.1, increment_nonce chain_nonce r.2)

/-- A run of k successful sends, collecting the nonces used. -/
def send_run (chain_nonce : ℕ) : ℕ → Option ℕ → List ℕ × Option ℕ
  | 0, s => ([], s)
  | k + 1, s =>
    let r := successful_send chain_nonce s
    let rest := send_run chain_nonce k r.2
    (r.1 :: rest.1, rest.2)

/-- A failed send as handled by deposit_to_market, execute_swap and
graduate_market: the error handler calls reset_nonce, so the local state
becomes the ledger nonce. -/
def failed_send (ledger_nonce : ℕ) (_ : Option ℕ) : Option ℕ :=
  reset_nonce ledger_nonce

/-
The trade method of trader_agent.py. Every sub-step that can raise is
modelled as an Except-valued outcome provided by the environment;
execute_swap has its own try/except returning None on failure and
therefore never raises into trade.
-/

/-- Environment of one trade call: the per-proposal bookkeeping flags and
the outcome of each fallible sub-step of the body. -/
structure TradeEnv where
  claimed_proposal : Bool
  deposited : Bool
  deposit_to_market : Except String Unit
  claim_vusd : Except String Unit
  get_proposal_tokens : Except String Unit
  approve_token_to_permit2 : Except String Unit
  approve_vusd : Except String Unit
  get_proposal_data : Except String Unit
  action_sell : Bool
  mint_yes_no : Except String Unit

/-- The try-block body of trade: deposit and claim on first contact with
the proposal, token lookups and approvals, then mint (sell path) and the
swap (whose errors execute_swap already absorbs). -/
def trade_body (env : TradeEnv) : Except String Unit := do
  if !env.claimed_proposal then
    if !env.deposited then
      env.deposit_to_market
    env.claim_vusd
  env.get_proposal_tokens
  env.approve_token_to_permit2
  env.approve_vusd
  env.get_proposal_data
  if env.action_sell then
    env.mint_yes_no
  pure ()

/-- trade: the body wrapped in the top-level try/except, which prints the
error and returns normally. -/
def trade (env : TradeEnv) : Except String Unit :=
  match trade_body env with
  | .ok _ => .ok ()
  | .error _ => .ok ()

end TraderAgent

namespace StartSwarm

/-
The trading loop of orchestrator/start_swarm.py: the per-iteration
termination decision and the graduation error handling.
-/

/-- check_market_status of trader_agent.py: the market counts as open when
its status is 0 and the deadline has not passed. -/
def check_market_status (current_time deadline status : ℕ) : Bool :=
  if current_time > deadline && status == 0 then false else status == 0

/-- What one iteration of the trading loop decides to do at its
termination checks. -/
inductive LoopAction where
  | graduateDeadline
  | graduateExhausted
  | keepTrading
deriving DecidableEq, Repr

/-- The outer exhaustion test of the trading loop: consecutive failures
above 20, or more than 100 trades with a failure ratio above 50 percent. -/
def exhaustion_trigger (consecutive_failures total_trades failed_trades : ℕ) : Bool :=
  consecutive_failures > 20
    || (total_trades > 100 && decide ((failed_trades : ℚ) > (total_trades : ℚ) * (1/2)))

/-- The inner graduation test, evaluated only when the exhaustion trigger
fired: consecutive failures above 20 or aggregate readable balance below
100. -/
def graduate_inner_condition (consecutive_failures : ℕ) (readable_balance : ℚ) : Bool :=
  consecutive_failures > 20 || decide (readable_balance < 100)

/-- The termination decision of one loop iteration: the deadline check (via
check_market_status) comes first and alone decides graduation; only an
open market reaches the exhaustion checks. total_balance is in wei and is
scaled to the readable balance exactly as in the source. -/
def loop_iteration_action (market_open : Bool)
    (consecutive_failures total_trades failed_trades : ℕ)
    (total_balance : ℚ) : LoopAction :=
  if !market_open then .graduateDeadline
  else if exhaustion_trigger consecutive_failures total_trades failed_trades
          && graduate_inner_condition consecutive_failures (total_balance / 10 ^ 18) then
    .graduateExhausted
  else .keepTrading

/-- The counter update surrounding the awaited trade call in the loop: a
normal return counts as a success and resets the consecutive-failure
counter; a raised exception counts as a failed trade. -/
def loop_trade_counters (trade_result : Except String Unit)
    (total_trades failed_trades consecutive_failures : ℕ) : ℕ × ℕ × ℕ :=
  match trade_result with
  | .ok _ => (total_trades + 1, failed_trades, 0)
  | .error _ => (total_trades, failed_trades + 1, consecutive_failures + 1)

/-- Outcome of the graduation attempt in the deadline branch of the loop. -/
inductive DeadlineGradOutcome where
  | proceedSuccess
  | proceedLoggedFailure
deriving DecidableEq, Repr

/-- The deadline-branch graduation handling: no error, or an error whose
lowercased message contains already graduated or proposal_accepted, is
treated as success; any other error is merely logged. -/
def deadline_branch_graduation (result : Option String) : DeadlineGradOutcome :=
  match result with
  | none => .proceedSuccess
  | some e =>
    if strContains (pyLower e) "already graduated"
        || strContains (pyLower e) "proposal_accepted" then
      .proceedSuccess
    else .proceedLoggedFailure

/-- Outcome of the graduation attempt in the exhaustion branch of the loop. -/
inductive ExhaustGradOutcome where
  | graduatedStop
  | retryAfterBackoff
  | stopAttempts
deriving DecidableEq, Repr

/-- The exhaustion-branch graduation handling: success ends trading; an
error containing deadline not yet reached sleeps and retries; any other
error stops further graduation attempts. -/
def exhaustion_branch_graduation (result : Option String) : ExhaustGradOutcome :=
  match result with
  | none => .graduatedStop
  | some e =>
    if strContains e "deadline not yet reached" then .retryAfterBackoff
    else .stopAttempts

end StartSwarm

/-
Helper lemmas (shared; not themselves claim theorems).
-/

lemma avg_price_calc_eq (preds : List (String × ℚ)) :
    AlloraPersonalities.avg_price_calc preds
      = some (AlloraPersonalities.avg_price_of preds) := by
  cases preds with
  | nil => rfl
  | cons a t =>
    simp only [AlloraPersonalities.avg_price_calc, AlloraPersonalities.avg_price_of,
      List.isEmpty_cons, AlloraPersonalities.safeDiv, Bool.false_eq_true, if_false]
    rw [if_neg]
    simp only [List.length_cons, Nat.cast_ne_zero]
    exact Nat.succ_ne_zero _

lemma base_confidence_exists (preds : List (String × ℚ)) :
    ∃ c, AlloraPersonalities.base_confidence_calc preds = some c := by
  cases preds with
  | nil => exact ⟨1/2, rfl⟩
  | cons a t =>
    simp only [AlloraPersonalities.base_confidence_calc, AlloraPersonalities.dictValues,
      List.map_cons]
    by_cases h : (a.2 :: List.map Prod.snd t).length > 1
    · rw [if_pos h]
      cases t with
      | nil => simp at h
      | cons b u => exact ⟨_, rfl⟩
    · rw [if_neg h]
      exact ⟨1/2, rfl⟩

lemma interpret_body_eq (preds : List (String × ℚ)) (p : Personality) :
    ∃ c, AlloraPersonalities.base_confidence_calc preds = some c ∧
      AlloraPersonalities.interpret_body preds p
        = some (AlloraPersonalities.apply_personality
            (AlloraPersonalities.avg_price_of preds) c p) := by
  obtain ⟨c, hc⟩ := base_confidence_exists preds
  refine ⟨c, hc, ?_⟩
  rw [AlloraPersonalities.interpret_body, avg_price_calc_eq, hc]

lemma interpret_body_isSome (preds : List (String × ℚ)) (p : Personality) :
    (AlloraPersonalities.interpret_body preds p).isSome = true := by
  obtain ⟨c, _, h⟩ := interpret_body_eq preds p
  rw [h]; rfl

/-
Claim theorems.
-/

/-- C3: personality assignment is a pure, total function of the identity
string: assign(a) is exactly the fixed ordered catalog indexed at
hash(a) mod catalog length (total for every string since the catalog is
nonempty), and any two calls whose digests agree return the same
personality, in this or any other run. -/
theorem personality_assignment_deterministic (md5hex : String → ℕ) (a : String) :
    AlloraPersonalities.get_trader_personality md5hex a
      = AlloraPersonalities.TRADER_PERSONALITIES.get
          ⟨md5hex a % AlloraPersonalities.TRADER_PERSONALITIES.length,
           Nat.mod_lt _ (by decide)⟩
    ∧ ∀ b : String, md5hex b = md5hex a →
        AlloraPersonalities.get_trader_personality md5hex b
          = AlloraPersonalities.get_trader_personality md5hex a := by
  refine ⟨rfl, fun b h => ?_⟩
  simp [AlloraPersonalities.get_trader_personality, h]

/-- Witness for C3 at a concrete digest function and two identities with
equal digests. -/
theorem personality_assignment_deterministic_witness :
    AlloraPersonalities.get_trader_personality String.length "bb"
      = AlloraPersonalities.get_trader_personality String.length "aa" :=
  (personality_assignment_deterministic String.length "aa").2 "bb" rfl

/-- C5: from a tracked local nonce n, k successful sends use exactly the
nonces n, n+1, ..., n+k-1 (the list range' n k), leaving the local nonce at
n+k; a send from a tracked state never consults the ledger (the chain value
is irrelevant); and after a failed send the next send uses exactly the
ledger nonce reported at the resync, not the locally incremented value. -/
theorem nonce_sequencing (chain_nonce ledger_nonce n k : ℕ) :
    TraderAgent.send_run chain_nonce k (some n) = (List.range' n k, some (n + k))
    ∧ (∀ chain2, TraderAgent.successful_send chain_nonce (some n)
        = TraderAgent.successful_send chain2 (some n))
    ∧ TraderAgent.successful_send chain_nonce
        (TraderAgent.failed_send ledger_nonce (some n))
        = (ledger_nonce, some (ledger_nonce + 1)) := by
  refine ⟨?_, fun chain2 => rfl, rfl⟩
  induction k generalizing n with
  | zero => simp [TraderAgent.send_run, List.range']
  | succ k ih =>
    simp only [TraderAgent.send_run, TraderAgent.successful_send, TraderAgent.get_nonce,
      TraderAgent.increment_nonce, List.range', ih (n + 1)]
    have harith : n + 1 + k = n + (k + 1) := by omega
    rw [harith]

/-- C10: the trade method absorbs every error raised in its body and always
returns normally, so the orchestrator counter update around the awaited
trade call always takes the success path: the total-trade counter is
incremented and the consecutive-failure counter is reset, never the
failed-trade counter. -/
theorem trade_absorbs_all_errors (env : TraderAgent.TradeEnv)
    (total_trades failed_trades consecutive_failures : ℕ) :
    TraderAgent.trade env = Except.ok ()
    ∧ StartSwarm.loop_trade_counters (TraderAgent.trade env)
        total_trades failed_trades consecutive_failures
        = (total_trades + 1, failed_trades, 0) := by
  have h : TraderAgent.trade env = Except.ok () := by
    unfold TraderAgent.trade
    cases TraderAgent.trade_body env <;> rfl
  exact ⟨h, by rw [h]; rfl⟩

/-- C4: whenever the deadline has passed on an open market the loop
iteration decides graduation from the deadline check alone, for every value
of the counters and of the balance; and whenever the consecutive-failure
counter exceeds 20 the iteration never continues trading, deciding the
exhaustion graduation whenever an open market reaches that check. -/
theorem termination_precedence
    (current_time deadline status consecutive_failures total_trades failed_trades : ℕ)
    (total_balance : ℚ) :
    (current_time > deadline → status = 0 →
       StartSwarm.loop_iteration_action
         (StartSwarm.check_market_status current_time deadline status)
         consecutive_failures total_trades failed_trades total_balance
         = StartSwarm.LoopAction.graduateDeadline)
    ∧ (consecutive_failures > 20 →
        StartSwarm.loop_iteration_action true
          consecutive_failures total_trades failed_trades total_balance
          = StartSwarm.LoopAction.graduateExhausted)
    ∧ (consecutive_failures > 20 →
        StartSwarm.loop_iteration_action
          (StartSwarm.check_market_status current_time deadline status)
          consecutive_failures total_trades failed_trades total_balance
          ≠ StartSwarm.LoopAction.keepTrading) := by
  have hexh : consecutive_failures > 20 →
      StartSwarm.loop_iteration_action true
        consecutive_failures total_trades failed_trades total_balance
        = StartSwarm.LoopAction.graduateExhausted := by
    intro h
    simp [StartSwarm.loop_iteration_action, StartSwarm.exhaustion_trigger,
      StartSwarm.graduate_inner_condition, h]
  refine ⟨fun hgt hst => ?_, hexh, fun h => ?_⟩
  · subst hst
    simp [StartSwarm.check_market_status, StartSwarm.loop_iteration_action, hgt]
  · cases hmo : StartSwarm.check_market_status current_time deadline status with
    | false => simp [StartSwarm.loop_iteration_action]
    | true => rw [hexh h]; intro hc; exact StartSwarm.LoopAction.noConfusion hc

/-- Witness for C4: deadline in the past decides graduation, and 21
consecutive failures decide the exhaustion graduation. -/
theorem termination_precedence_witness :
    StartSwarm.loop_iteration_action (StartSwarm.check_market_status 10 5 0) 21 0 0 0
      = StartSwarm.LoopAction.graduateDeadline
    ∧ StartSwarm.loop_iteration_action true 21 0 0 0
      = StartSwarm.LoopAction.graduateExhausted :=
  ⟨(termination_precedence 10 5 0 21 0 0 0).1 (by decide) rfl,
   (termination_precedence 10 5 0 21 0 0 0).2.1 (by decide)⟩

/-- C8: a graduation error whose lowercased message contains already
graduated is treated as success in the deadline branch; an error containing
deadline not yet reached is retried after the backoff in the exhaustion
branch; any other error there stops further graduation attempts. -/
theorem graduation_error_policy (e1 e2 e3 : String) :
    (strContains (pyLower e1) "already graduated" = true →
       StartSwarm.deadline_branch_graduation (some e1)
         = StartSwarm.DeadlineGradOutcome.proceedSuccess)
    ∧ (strContains e2 "deadline not yet reached" = true →
       StartSwarm.exhaustion_branch_graduation (some e2)
         = StartSwarm.ExhaustGradOutcome.retryAfterBackoff)
    ∧ (strContains e3 "deadline not yet reached" = false →
       StartSwarm.exhaustion_branch_graduation (some e3)
         = StartSwarm.ExhaustGradOutcome.stopAttempts) := by
  refine ⟨fun h => ?_, fun h => ?_, fun h => ?_⟩ <;>
    simp [StartSwarm.deadline_branch_graduation,
      StartSwarm.exhaustion_branch_graduation, h]

/-- Witness for C8 at three concrete error messages. -/
theorem graduation_error_policy_witness :
    StartSwarm.deadline_branch_graduation (some "Market ALREADY graduated")
      = StartSwarm.DeadlineGradOutcome.proceedSuccess
    ∧ StartSwarm.exhaustion_branch_graduation
        (some "execution reverted: deadline not yet reached")
      = StartSwarm.ExhaustGradOutcome.retryAfterBackoff
    ∧ StartSwarm.exhaustion_branch_graduation (some "out of gas")
      = StartSwarm.ExhaustGradOutcome.stopAttempts :=
  ⟨(graduation_error_policy "Market ALREADY graduated" "x" "x").1 (by decide),
   (graduation_error_policy "x" "execution reverted: deadline not yet reached" "x").2.1
     (by decide),
   (graduation_error_policy "x" "x" "out of gas").2.2 (by decide)⟩

/-- C9: the prediction fetch is total in the oracle outcome: on a cache
miss it returns a set whose keys are exactly the configured assets, stores
that set into the cache, and for every asset whose oracle call failed the
value is that asset's static fallback. -/
theorem prediction_fetch_fallback (oracle : ℕ → Option ℚ) :
    ((AlloraPersonalities.get_ai_token_predictions oracle none false).1.map Prod.fst
        = AlloraPersonalities.AI_TOKEN_TOPICS.map Prod.snd)
    ∧ ((AlloraPersonalities.get_ai_token_predictions oracle none false).2
        = some (AlloraPersonalities.get_ai_token_predictions oracle none false).1)
    ∧ (∀ topic name, (topic, name) ∈ AlloraPersonalities.AI_TOKEN_TOPICS →
        oracle topic = none →
        (name, AlloraPersonalities.fallback_default name)
          ∈ (AlloraPersonalities.get_ai_token_predictions oracle none false).1) := by
  refine ⟨?_, rfl, fun topic name hmem hfail => ?_⟩
  · simp [AlloraPersonalities.get_ai_token_predictions,
      AlloraPersonalities.fetch_predictions, List.map_map]
  · simp only [AlloraPersonalities.get_ai_token_predictions,
      AlloraPersonalities.fetch_predictions]
    exact List.mem_map.mpr ⟨(topic, name), hmem, by simp [hfail]⟩

/-- Witness for C9: with an oracle that always fails, the Virtual asset is
served its fallback value of 20. -/
theorem prediction_fetch_fallback_witness :
    ("Virtual/USDT", AlloraPersonalities.fallback_default "Virtual/USDT")
      ∈ (AlloraPersonalities.get_ai_token_predictions (fun _ => none) none false).1 :=
  (prediction_fetch_fallback (fun _ => none)).2.2 31 "Virtual/USDT" (by decide) rfl

/-- C1 counterexample: for the contrarian catalog entry (threshold 0) and a
prediction whose combined value 1/10 makes the default mapping bullish+buy,
interpret_prediction returns bearish together with the action buy, not the
bearish+sell the claim states. -/
theorem contrarian_inversion_cex :
    AlloraPredictor.TRADER_PERSONALITIES.get ⟨1, by decide⟩
      = { name := "Peter Schiff", bullish_threshold := 0,
          confidence_weight := (3/10), action_bias := "contrarian" }
    ∧ ((1/10 : ℚ) > 0)
    ∧ AlloraPredictor.interpret_prediction ⟨1/10, 1/10, -(1/10)⟩
        { name := "Peter Schiff", bullish_threshold := 0,
          confidence_weight := (3/10), action_bias := "contrarian" }
      = ⟨false, "buy", 3/5⟩ := by
  refine ⟨rfl, by norm_num, ?_⟩
  simp +decide [AlloraPredictor.interpret_prediction]
  norm_num

/-- C1 (amended): for every contrarian personality and every prediction on
which the default mapping would yield bullish+buy, the bullish flag is
inverted to false and the action mapping is inverted as well, so the two
inversions cancel on the action and the decision is bearish together with
the action buy. -/
theorem contrarian_inversion (p : Personality) (d : AlloraPredictor.PredictionData)
    (hbias : p.action_bias = "contrarian")
    (hbull : d.combined_value > p.bullish_threshold) :
    (AlloraPredictor.interpret_prediction d p).is_bullish = false
    ∧ (AlloraPredictor.interpret_prediction d p).action = "buy" := by
  simp +decide [AlloraPredictor.interpret_prediction, hbias, hbull]

/-- Witness for C1 (amended) at the contrarian catalog entry and a
concretely bullish prediction. -/
theorem contrarian_inversion_witness :
    (AlloraPredictor.interpret_prediction ⟨1/10, 1/10, -(1/10)⟩
        { name := "Peter Schiff", bullish_threshold := 0,
          confidence_weight := (3/10), action_bias := "contrarian" }).is_bullish = false
    ∧ (AlloraPredictor.interpret_prediction ⟨1/10, 1/10, -(1/10)⟩
        { name := "Peter Schiff", bullish_threshold := 0,
          confidence_weight := (3/10), action_bias := "contrarian" }).action = "buy" :=
  contrarian_inversion _ _ rfl (by norm_num)

/-- C2 counterexample: on the empty prediction mapping with the balanced
catalog entry, interpret_ai_market_prediction returns confidence 1/2, not
the fixed default decision (false, sell, 3/10). -/
theorem decision_empty_default_cex :
    AlloraPersonalities.TRADER_PERSONALITIES.get ⟨4, by decide⟩
      = { name := "Vitalik Buterin", bullish_threshold := 0,
          confidence_weight := (4/5), action_bias := "balanced" }
    ∧ AlloraPersonalities.interpret_ai_market_prediction []
        { name := "Vitalik Buterin", bullish_threshold := 0,
          confidence_weight := (4/5), action_bias := "balanced" }
      = ⟨false, "sell", 1/2⟩
    ∧ AlloraPersonalities.interpret_ai_market_prediction []
        { name := "Vitalik Buterin", bullish_threshold := 0,
          confidence_weight := (4/5), action_bias := "balanced" }
      ≠ ⟨false, "sell", 3/10⟩ := by
  have h : AlloraPersonalities.interpret_ai_market_prediction []
      { name := "Vitalik Buterin", bullish_threshold := 0,
        confidence_weight := (4/5), action_bias := "balanced" }
      = ⟨false, "sell", 1/2⟩ := by
    simp +decide [AlloraPersonalities.interpret_ai_market_prediction,
      AlloraPersonalities.interpret_body, AlloraPersonalities.avg_price_calc,
      AlloraPersonalities.base_confidence_calc, AlloraPersonalities.apply_personality,
      AlloraPersonalities.dictValues, AlloraPersonalities.pyMax, AlloraPersonalities.pyMin]
  refine ⟨rfl, h, ?_⟩
  rw [h]
  intro hc
  have := congrArg Decision.confidence hc
  norm_num at this

/-- C2 (amended): interpretation never raises for any well-typed prediction
mapping and personality (the try-block body always returns a value, so the
fixed default (false, sell, 3/10) is reserved for actual exceptions); on
the empty mapping the function behaves exactly as on a single prediction of
value 50, yielding the aggregate 50 and base confidence 1/2 and hence a
personality-dependent decision rather than the fixed default. -/
theorem decision_totality_empty (preds : List (String × ℚ)) (p : Personality) (s : String) :
    (AlloraPersonalities.interpret_body preds p).isSome = true
    ∧ AlloraPersonalities.interpret_ai_market_prediction [] p
        = AlloraPersonalities.interpret_ai_market_prediction [(s, 50)] p := by
  refine ⟨interpret_body_isSome preds p, ?_⟩
  unfold AlloraPersonalities.interpret_ai_market_prediction AlloraPersonalities.interpret_body
  norm_num [AlloraPersonalities.avg_price_calc, AlloraPersonalities.base_confidence_calc,
    AlloraPersonalities.safeDiv, AlloraPersonalities.dictValues]

/-- C6: for a personality with the momentum bias and bullish threshold
-1/20, the Virtual price 25 yields sentiment 1/4 (bullish), the distance
confidence 4/5 is amplified by 3/2 and capped at 1, and the action is buy. -/
theorem momentum_scenario (p : Personality)
    (hbias : p.action_bias = "momentum") (hth : p.bullish_threshold = -(1/20)) :
    AlloraGameAgent.interpret_virtual_price 25 p = ⟨true, "buy", 1⟩
    ∧ ((25 : ℚ) - 20) / 20 = 1/4
    ∧ min 1 (|(1/4 : ℚ)| * 2 + (3/10)) = 4/5
    ∧ min 1 ((4/5 : ℚ) * (3/2)) = 1 := by
  refine ⟨?_, by norm_num,
    by rw [abs_of_pos (by norm_num : (0:ℚ) < 1/4)]; simp only [min_def]; norm_num,
    by simp only [min_def]; norm_num⟩
  simp +decide [AlloraGameAgent.interpret_virtual_price, hbias, hth]
  have h4 : ((25:ℚ) - 20) / 20 = 1/4 := by norm_num
  rw [h4, abs_of_pos (by norm_num : (0:ℚ) < 1/4)]
  simp only [min_def]
  norm_num

/-- Witness for C6 at the momentum catalog entry Chloe. -/
theorem momentum_scenario_witness :
    AlloraGameAgent.interpret_virtual_price 25
      { name := "Chloe", bullish_threshold := -(1/20),
        confidence_weight := (1/2), action_bias := "momentum" }
      = ⟨true, "buy", 1⟩ :=
  (momentum_scenario _ rfl rfl).1

/-- C7: for every personality with the yolo bias and every prediction
mapping, the confidence is exactly 1, the bullish flag compares the
aggregate price against the fixed floor 40 (not the personality threshold),
and the action follows the bullish flag. -/
theorem yolo_saturation (p : Personality) (preds : List (String × ℚ))
    (hbias : p.action_bias = "yolo") :
    (AlloraPersonalities.interpret_ai_market_prediction preds p).confidence = 1
    ∧ (AlloraPersonalities.interpret_ai_market_prediction preds p).is_bullish
        = decide (AlloraPersonalities.avg_price_of preds > 40)
    ∧ (AlloraPersonalities.interpret_ai_market_prediction preds p).action
        = (if AlloraPersonalities.avg_price_of preds > 40 then "buy" else "sell") := by
  obtain ⟨c, hc, hbody⟩ := interpret_body_eq preds p
  unfold AlloraPersonalities.interpret_ai_market_prediction
  rw [hbody]
  simp only [Option.getD_some]
  simp [AlloraPersonalities.apply_personality, hbias]

/-- Witness for C7 at the yolo catalog entry and a one-asset mapping. -/
theorem yolo_saturation_witness :
    (AlloraPersonalities.interpret_ai_market_prediction [("Virtual/USDT", 20)]
        { name := "Satoshi Nakamoto", bullish_threshold := -(1/10),
          confidence_weight := (1/10), action_bias := "yolo" }).confidence = 1
    ∧ (AlloraPersonalities.interpret_ai_market_prediction [("Virtual/USDT", 20)]
        { name := "Satoshi Nakamoto", bullish_threshold := -(1/10),
          confidence_weight := (1/10), action_bias := "yolo" }).is_bullish
        = decide (AlloraPersonalities.avg_price_of [("Virtual/USDT", 20)] > 40)
    ∧ (AlloraPersonalities.interpret_ai_market_prediction [("Virtual/USDT", 20)]
        { name := "Satoshi Nakamoto", bullish_threshold := -(1/10),
          confidence_weight := (1/10), action_bias := "yolo" }).action
        = (if AlloraPersonalities.avg_price_of [("Virtual/USDT", 20)] > 40
           then "buy" else "sell") :=
  yolo_saturation _ _ rfl
